import Mathlib

/-!
Shallow embedding of the resumable Social Blade enrichment pipeline of
`src/main.py` (repository KMohZaid/Youtube-Subscription-List-Analyzer),
together with theorems settling the specification claims about it.

The embedding covers:
* the field extractor `_get_text` / `_get_first_text` of `SocialBladeScraper`;
* the stats fetcher `fetch_channel_stats` / `fetch_video_stats` and the block
  extractors `_extract_recent_daily_stats`, `_extract_daily_average`,
  `_extract_average`;
* the per-subject enrichment loop of `SocialBladeEnhancer.enhance_data`
  (skip check, dataframe update, checkpoint write, periodic flush,
  KeyboardInterrupt handling, final save);
* checkpoint loading `SocialBladeEnhancer.load_progress` together with the
  subscript that `enhance_data` performs on its result;
* the completion heuristic of the `enhance` CLI command.

Python exceptions are modelled with `Except`, Python `None` inside
string-typed slots with an explicit dynamic `Value` type, files with
`Option` state, and the pandas dataframe with a list of rows.
-/

namespace SBA

/-- Dynamic value held in a Python string-typed slot: either an actual string
or Python `None` (for example a JSON `null` deserialised by
`response.json()`).  The extraction helpers of the scraper always produce
`.str`; `.null` can only enter through JSON payloads. -/
inductive Value where
  | str (s : String)
  | null
  deriving DecidableEq, Repr

/-- True iff the value is an actual string. -/
def Value.isStr : Value → Bool
  | Value.str _ => true
  | Value.null => false

/-- Model of a BeautifulSoup node.  `sel` models `select_one`, `selAll`
models `select`, `text` the `.text` property, `attr` the attribute lookup
`get`, `contents` the child-node list (text nodes are modelled as nodes
whose `text` is the string), and `directString` models
`find(string=True, recursive=False)`.  CSS selector resolution is
third-party behaviour of the bs4 library, so it is modelled as an opaque
function of the node. -/
inductive Element where
  | mk (sel : String → Option Element)
       (selAll : String → List Element)
       (text : String)
       (attr : String → Option String)
       (contents : List Element)
       (directString : Option String)

/-- Projection for `select_one`. -/
def Element.sel : Element → String → Option Element
  | Element.mk f _ _ _ _ _ => f

/-- Projection for `select`. -/
def Element.selAll : Element → String → List Element
  | Element.mk _ f _ _ _ _ => f

/-- Projection for the `.text` property. -/
def Element.text : Element → String
  | Element.mk _ _ t _ _ _ => t

/-- Projection for attribute lookup (`element.get name`, no default). -/
def Element.attr : Element → String → Option String
  | Element.mk _ _ _ a _ _ => a

/-- Projection for `.contents`. -/
def Element.contents : Element → List Element
  | Element.mk _ _ _ _ c _ => c

/-- Projection for `find(string=True, recursive=False)`. -/
def Element.directString : Element → Option String
  | Element.mk _ _ _ _ _ d => d

/-- Tail of `_get_text` (src/main.py lines 309-311) once an element has been
selected and the attribute branch has not been taken: either the text of the
first child node (`element.contents[0].text.strip()`, an `IndexError` when
there is no child) or the element text (`element.text.strip()`). -/
def get_text_rest (element : Element) (call_firstChild : Bool) : Except String String :=
  if call_firstChild then
    match element.contents with
    | [] => Except.error "IndexError"
    | c :: _ => Except.ok c.text.trim
  else Except.ok element.text.trim

/-- Body of `SocialBladeScraper._get_text` (src/main.py lines 295-313) before
the blanket `except`.  The `soup` argument is `Option Element` because the
callers in `_extract_daily_average` / `_extract_average` pass the possibly
absent result of a `select_one` (Python raises `AttributeError` on `None`).
An `attr` argument equal to the empty string is falsy in Python
(`if attr:`), hence falls through to the text branches. -/
def get_text_body (soup : Option Element) (selector : String)
    (attr : Option String) (call_firstChild : Bool) : Except String String :=
  match soup with
  | none => Except.error "AttributeError"
  | some s =>
    match s.sel selector with
    | none => Except.ok "N/A"
    | some element =>
      match attr with
      | some a =>
        if a = "" then get_text_rest element call_firstChild
        else Except.ok ((element.attr a).getD "N/A")
      | none => get_text_rest element call_firstChild

/-- Method `SocialBladeScraper._get_text`: the body wrapped in the blanket
`except Exception: return "N/A"`.  Total by construction: it always returns
a string, mirroring that the Python method never raises. -/
def get_text (soup : Option Element) (selector : String)
    (attr : Option String) (call_firstChild : Bool) : String :=
  match get_text_body soup selector attr call_firstChild with
  | Except.ok v => v
  | Except.error _ => "N/A"

/-- Body of `SocialBladeScraper._get_first_text` (src/main.py lines 377-385)
before the blanket `except`: `element.select_one(selector)` (an
`AttributeError` when `element` is `None`), then
`selected.find(string=True, recursive=False).strip()` (an `AttributeError`
when no direct string child exists, since `find` returns `None`). -/
def get_first_text_body (element : Option Element) (selector : String) :
    Except String String :=
  match element with
  | none => Except.error "AttributeError"
  | some el =>
    match el.sel selector with
    | none => Except.ok "N/A"
    | some selected =>
      match selected.directString with
      | none => Except.error "AttributeError"
      | some s => Except.ok s.trim

/-- Method `SocialBladeScraper._get_first_text`: the body wrapped in the blanket
`except Exception: return "N/A"`. -/
def get_first_text (element : Option Element) (selector : String) : String :=
  match get_first_text_body element selector with
  | Except.ok v => v
  | Except.error _ => "N/A"

/-- Python `x or fallback` for a string `x`: the fallback is taken exactly
when `x` is the empty string (the only falsy string). -/
def pyOr (s fallback : String) : String :=
  if s = "" then fallback else s

/-- The `DailyStats` dataclass of src/main.py lines 142-152. -/
structure DailyStats where
  date : String
  day : String
  subscriber_growth : String
  total_subscribers : String
  video_views : String
  total_views : String
  estimated_earnings : String
  deriving DecidableEq, Repr

/-- The `AverageStats` dataclass of src/main.py lines 155-162. -/
structure AverageStats where
  name : String
  subscriber_growth : String
  view_growth : String
  estimated_earnings : String
  deriving DecidableEq, Repr

/-- One record of the JSON array returned by the video-list endpoint: a
dictionary of JSON fields.  Values are dynamic (`Value`), since JSON can
hold `null` where the code expects a string. -/
structure VideoRec where
  fields : List (String × Value)
  deriving DecidableEq, Repr

/-- The `SocialBladeStats` dataclass of src/main.py lines 165-191.  The
sixteen string-typed fields are dynamic slots (`Value`) because Python does
not enforce the `str` annotation; the dataclass defaults are
`"N/A"` for them and `None` for the nested fields.  The `json.dumps`
serialisation of the video list is modelled by keeping the list itself. -/
structure SocialBladeStats where
  avatar : Value
  name : Value
  username : Value
  profile_url : Value
  subscribers : Value
  total_views : Value
  uploads : Value
  country : Value
  channel_type : Value
  created : Value
  subscribers_last_30_days : Value
  subscribers_growth_30_days : Value
  estimated_monthly_earnings : Value
  video_views_last_30_days : Value
  video_views_growth_30_days : Value
  recent_daily_stats_json : Option (List DailyStats)
  daily_average_stats_json : Option AverageStats
  weekly_average_stats_json : Option AverageStats
  monthly_average_stats_json : Option AverageStats
  last_video_upload_date : Value
  last_50_videos_stats_json : Option (List VideoRec)
  deriving DecidableEq, Repr

/-- Environment of one `fetch(subject)` call: the HTTP status and parsed
document of the profile-page GET, and the HTTP status and parsed JSON body
of the video-list POST.  `videoJson = none` models a body on which
`response.json()` raises or that is not a JSON array (both end in the
blanket `except` of `fetch_video_stats`). -/
structure FetchEnv where
  profileStatus : Nat
  profileDoc : Element
  videoStatus : Nat
  videoJson : Option (List VideoRec)

/-- Method `SocialBladeScraper.fetch_video_stats` (src/main.py lines 387-432).
Non-200 status returns `None`; a malformed body raises inside the `try` and
the blanket `except` returns `None`; a missing `created_at` key on the first
record raises `KeyError`, likewise caught, so the whole call returns `None`;
an empty array yields the pair `("N/A", [])`. -/
def fetch_video_stats (env : FetchEnv) : Option (Value × List VideoRec) :=
  if env.videoStatus ≠ 200 then none
  else
    match env.videoJson with
    | none => none
    | some vids =>
      match vids with
      | [] => some (Value.str "N/A", [])
      | v :: rest =>
        match v.fields.lookup "created_at" with
        | none => none
        | some d => some (d, v :: rest)

/-- The fifteen scalar `_get_text` extractions of
`SocialBladeScraper.fetch_channel_stats` (src/main.py lines 225-272),
assembled into a `SocialBladeStats` whose remaining fields still hold the
dataclass defaults. -/
def scalarStats (soup : Element) : SocialBladeStats where
  avatar := Value.str (get_text (some soup) "#YouTubeUserTopInfoAvatar" (some "src") false)
  name := Value.str (get_text (some soup) "#YouTubeUserTopInfoBlockTop h1" none false)
  username := Value.str (get_text (some soup) "#YouTubeUserTopInfoBlockTop h4 a" none false)
  profile_url := Value.str (get_text (some soup) "#YouTubeUserTopInfoBlockTop h4 a" (some "href") false)
  subscribers := Value.str (get_text (some soup) "#YouTubeUserTopInfoBlock div.YouTubeUserTopInfo:nth-child(3) > span:nth-child(3)" none false)
  total_views := Value.str (get_text (some soup) "#YouTubeUserTopInfoBlock div.YouTubeUserTopInfo:nth-child(4) > span:nth-child(3)" none false)
  uploads := Value.str (get_text (some soup) "#YouTubeUserTopInfoBlock .YouTubeUserTopInfo:nth-child(2) span:nth-child(3)" none false)
  country := Value.str (get_text (some soup) "#youtube-user-page-country" none false)
  channel_type := Value.str (get_text (some soup) "#youtube-user-page-channeltype" none false)
  created := Value.str (get_text (some soup) "#YouTubeUserTopInfoBlock .YouTubeUserTopInfo:nth-child(7) span:nth-child(3)" none false)
  subscribers_last_30_days := Value.str (get_text (some soup) "#socialblade-user-content > div:nth-child(3) > div:nth-child(1) > p:nth-child(1)" none true)
  subscribers_growth_30_days := Value.str (get_text (some soup) "#socialblade-user-content > div:nth-child(3) > div:nth-child(1) > p:nth-child(1) > sup:nth-child(1) > span:nth-child(1)" none false)
  estimated_monthly_earnings := Value.str (get_text (some soup) "#socialblade-user-content > div:nth-child(3) > div:nth-child(2) > p:nth-child(1)" none false)
  video_views_last_30_days := Value.str (get_text (some soup) "#socialblade-user-content > div:nth-child(3) > div:nth-child(3) > p:nth-child(1)" none true)
  video_views_growth_30_days := Value.str (get_text (some soup) "#socialblade-user-content > div:nth-child(3) > div:nth-child(3) > p:nth-child(1) > sup:nth-child(1) > span:nth-child(1)" none false)
  recent_daily_stats_json := none
  daily_average_stats_json := none
  weekly_average_stats_json := none
  monthly_average_stats_json := none
  last_video_upload_date := Value.str "N/A"
  last_50_videos_stats_json := none

/-- The per-block `DailyStats` construction inside
`_extract_recent_daily_stats` (src/main.py lines 323-340).  The
`subscriber_growth` extraction is post-processed with Python `or "--"`. -/
def dailyStatOf (element : Element) : DailyStats where
  date := get_text (some element) "div:nth-child(1)" none false
  day := get_text (some element) "div:nth-child(2)" none false
  subscriber_growth := pyOr (get_text (some element) "div:nth-child(3) div:nth-child(1) span" none false) "--"
  total_subscribers := get_text (some element) "div:nth-child(3) div:nth-child(2)" none false
  video_views := get_text (some element) "div:nth-child(4) div:nth-child(1) span" none false
  total_views := get_text (some element) "div:nth-child(4) div:nth-child(2)" none false
  estimated_earnings := get_text (some element) "div:nth-child(5)" none false

/-- Method `SocialBladeScraper._extract_recent_daily_stats` (src/main.py lines
315-346): select the child divs of the user-content container and map the
Python slice `[6:20]` (drop the six leading non-data blocks, keep at most
fourteen) over the per-block construction.  Every operation of the `try`
body is total in this model, so the `except` branch returning `[]` is
unreachable; the empty result arises exactly when the container has at most
six child divs. -/
def extract_recent_daily_stats (soup : Element) : List DailyStats :=
  ((soup.selAll "#socialblade-user-content > div").drop 6).take 14 |>.map dailyStatOf

/-- Method `SocialBladeScraper._extract_daily_average` (src/main.py lines 348-359).
The selected block may be absent; every helper called on it catches its own
exceptions, so the `except Exception: return None` of the source is
unreachable in this model and the result is always `some`.  Note the
id-based locators for two of the four fields, unlike the weekly/monthly
variant. -/
def extract_daily_average (soup : Element) : Option AverageStats :=
  let daily_div := soup.sel "#socialblade-user-content > div:nth-child(21)"
  some { name := get_first_text daily_div "div:nth-child(1)"
         subscriber_growth := get_text daily_div "#averagedailysubs span" none false
         view_growth := get_text daily_div "#averagedailyviews span" none false
         estimated_earnings := get_text daily_div "div:nth-child(4)" none false }

/-- Method `SocialBladeScraper._extract_average` (src/main.py lines 361-375) for
`period` equal to `"weekly"` or `"monthly"`: positional locators only. -/
def extract_average (soup : Element) (period : String) : Option AverageStats :=
  let selector := if period = "weekly" then "div:nth-child(22)" else "div:nth-child(23)"
  let avg_div := soup.sel ("#socialblade-user-content > " ++ selector)
  some { name := get_first_text avg_div "div:nth-child(1)"
         subscriber_growth := get_text avg_div "div:nth-child(2) span" none false
         view_growth := get_text avg_div "div:nth-child(3) span" none false
         estimated_earnings := get_text avg_div "div:nth-child(4) span" none false }

/-- Lines 274-279 of src/main.py: overwrite the video-derived fields when
`fetch_video_stats` returned a result, leave the defaults otherwise. -/
def applyVideo (env : FetchEnv) (s : SocialBladeStats) : SocialBladeStats :=
  match fetch_video_stats env with
  | none => s
  | some (d, vids) =>
    { s with last_video_upload_date := d, last_50_videos_stats_json := some vids }

/-- Lines 281-287 of src/main.py: fill in the recent-daily block and the
three average blocks. -/
def applyBlocks (soup : Element) (s : SocialBladeStats) : SocialBladeStats :=
  { s with
    recent_daily_stats_json := some (extract_recent_daily_stats soup)
    daily_average_stats_json := extract_daily_average soup
    weekly_average_stats_json := extract_average soup "weekly"
    monthly_average_stats_json := extract_average soup "monthly" }

/-- The successful branch of `fetch_channel_stats`: scalar extraction, video
fetch, block extraction, in source order. -/
def assembleStats (env : FetchEnv) : SocialBladeStats :=
  applyBlocks env.profileDoc (applyVideo env (scalarStats env.profileDoc))

/-- Method `SocialBladeScraper.fetch_channel_stats` (src/main.py lines 200-293).
A non-200 profile response returns `None` (logged, no retry inside the
call); otherwise the stats record is assembled and returned.  A network
exception would likewise return `None` through the blanket `except`; the
environment models the received response, so that case coincides with the
non-200 one for the claims at hand. -/
def fetch_channel_stats (env : FetchEnv) : Option SocialBladeStats :=
  if env.profileStatus ≠ 200 then none
  else some (assembleStats env)

/-- The fetch function the pipeline drives: one `FetchEnv` per subject
position, each run through `fetch_channel_stats`. -/
def pipelineFetch (envs : Nat → FetchEnv) : Nat → Option SocialBladeStats :=
  fun i => fetch_channel_stats (envs i)

/-- One row of the working dataframe of `enhance_data`: the base columns
(identity key `channel_id`, display title) and the enrichment columns.  The
per-key writes `df.at[idx, "socialblade_" + key] = value` of lines 602-603
write the whole stats record at once, which is modelled by an
`Option SocialBladeStats` payload: `none` means the row carries only its
original columns. -/
structure Row where
  channel_id : String
  channel_title : String
  socialblade : Option SocialBladeStats
  deriving DecidableEq, Repr

/-- In-memory and persisted state of one `enhance_data` run: the working
dataframe `df`, the in-memory `processed_channels` set (kept as a list, in
insertion order), the durably written enhanced CSV (`none` when the file
does not exist) and the durably written progress JSON (`none` when the file
does not exist). -/
structure PipeState where
  df : List Row
  processed : List String
  enhancedFile : Option (List Row)
  progressFile : Option (List String)
  deriving Repr

/-- Lines 569-609 of src/main.py for a non-skipped subject: fetch; on
success update the row in place, add the identifier to
`processed_channels`, and rewrite the whole progress file
(`save_progress`); on failure (`stats is None`) change nothing. -/
def updateOnFetch (fetch : Nat → Option SocialBladeStats) (st : PipeState)
    (idx : Nat) (row : Row) : PipeState :=
  match fetch idx with
  | none => st
  | some s =>
    let p2 := st.processed ++ [row.channel_id]
    { st with
      df := st.df.set idx { row with socialblade := some s }
      processed := p2
      progressFile := some p2 }

/-- Lines 611-616 of src/main.py: on every subject position divisible by 10
the entire dataframe is written to the enhanced CSV. -/
def maybeFlush (st : PipeState) (idx : Nat) : PipeState :=
  if idx % 10 == 0 then { st with enhancedFile := some st.df } else st

/-- One iteration of the `for idx, row in df.iterrows()` loop of
`enhance_data` (src/main.py lines 562-616): subjects already in the loaded
checkpoint are skipped by `continue` (which also bypasses the periodic
flush); otherwise the subject is fetched, merged and checkpointed, and then
the periodic flush fires on every tenth position regardless of fetch
success. -/
def processRow (fetch : Nat → Option SocialBladeStats) (st : PipeState)
    (idx : Nat) : PipeState :=
  match st.df[idx]? with
  | none => st
  | some row =>
    if row.channel_id ∈ st.processed then st
    else maybeFlush (updateOnFetch fetch st idx row) idx

/-- Lines 618-622 of src/main.py: the final save after an uninterrupted
pass — the dataframe is written and the progress file removed. -/
def finalSave (st : PipeState) : PipeState :=
  { st with enhancedFile := some st.df, progressFile := none }

/-- Lines 627-632 of src/main.py: the `KeyboardInterrupt` handler — the
dataframe is written, the full in-memory processed set is written to the
progress file (left intact for the next run), and the run returns. -/
def interruptSave (st : PipeState) : PipeState :=
  { st with enhancedFile := some st.df, progressFile := some st.processed }

/-- Terminal outcome of one run. -/
inductive RunOutcome where
  | completed
  | interrupted
  deriving DecidableEq, Repr

/-- The iteration of `enhance_data` over the remaining subject positions.
Cancellation is cooperative (spec section 5): `cancel = some c` delivers a
`KeyboardInterrupt` at the top of the iteration for position `c`, which the
handler of lines 627-632 turns into flush-then-return. -/
def runFrom (fetch : Nat → Option SocialBladeStats) (cancel : Option Nat) :
    List Nat → PipeState → PipeState × RunOutcome
  | [], st => (finalSave st, RunOutcome.completed)
  | idx :: rest, st =>
    if cancel = some idx then (interruptSave st, RunOutcome.interrupted)
    else runFrom fetch cancel rest (processRow fetch st idx)

/-- A whole uncancelled or cancelled run over the dataframe. -/
def runEnhance (fetch : Nat → Option SocialBladeStats) (cancel : Option Nat)
    (st : PipeState) : PipeState × RunOutcome :=
  runFrom fetch cancel (List.range st.df.length) st

/-- The sequence of states an uncancelled iteration passes through: the
state before each loop iteration and the state when the loop has ended
(before the final save). -/
def traceFrom (fetch : Nat → Option SocialBladeStats) :
    List Nat → PipeState → List PipeState
  | [], st => [st]
  | idx :: rest, st => st :: traceFrom fetch rest (processRow fetch st idx)

/-- Decidable check of the persisted-state invariant claimed by the spec:
every identifier of the persisted checkpoint has an enriched row in the
persisted dataset. -/
def fileCoveredB (cp : Option (List String)) (ds : Option (List Row)) : Bool :=
  match cp with
  | none => true
  | some ids =>
    ids.all fun id =>
      match ds with
      | none => false
      | some rows => rows.any fun r => r.channel_id == id && r.socialblade.isSome

/-- Decidable statement of claim C1 for one concrete run: the persisted
checkpoint never runs ahead of the persisted dataset at any point of the
iteration. -/
def runRespectsC1 (fetch : Nat → Option SocialBladeStats) (idxs : List Nat)
    (st : PipeState) : Bool :=
  (traceFrom fetch idxs st).all fun s => fileCoveredB s.progressFile s.enhancedFile

/-- The dataframe holds an enriched row for the given identifier. -/
def dfEnriches (df : List Row) (id : String) : Prop :=
  ∃ i, ∃ h : i < df.length,
    (df.get ⟨i, h⟩).channel_id = id ∧ (df.get ⟨i, h⟩).socialblade.isSome = true

/-- In-memory consistency: every identifier of the in-memory processed set
has an enriched row in the in-memory dataframe. -/
def memCovered (st : PipeState) : Prop :=
  ∀ id ∈ st.processed, dfEnriches st.df id

/-- Persisted consistency: every identifier of the persisted checkpoint has
an enriched row in the persisted dataset. -/
def persistedCovered (st : PipeState) : Prop :=
  ∀ ids, st.progressFile = some ids →
    ∀ id ∈ ids, ∃ rows, st.enhancedFile = some rows ∧ dfEnriches rows id

/-- Shape of a parsed JSON document, as produced by Python `json.load`. -/
inductive PyJson where
  | jnull
  | jstr (s : String)
  | jnum (n : Int)
  | jlist (xs : List PyJson)
  | jdict (entries : List (String × PyJson))

/-- Durable state of the progress file as seen by `load_progress`:
absent; present but not syntactically valid JSON (`json.JSONDecodeError`);
present but unreadable at the IO layer (for example `OSError` or
`UnicodeDecodeError`, which are not `JSONDecodeError`); or present with a
parsed JSON value of arbitrary shape. -/
inductive ProgressFileShape where
  | absent
  | notJson
  | ioFailure
  | parsed (v : PyJson)

/-- Method `SocialBladeEnhancer.load_progress` (src/main.py lines 513-521): return
the parsed JSON when the file exists and parses; return the fresh dict
`{"processed_channels": []}` when the file is absent or raises
`JSONDecodeError` (logged warning); any other exception propagates. -/
def load_progress : ProgressFileShape → Except String PyJson
  | ProgressFileShape.absent =>
      Except.ok (PyJson.jdict [("processed_channels", PyJson.jlist [])])
  | ProgressFileShape.notJson =>
      Except.ok (PyJson.jdict [("processed_channels", PyJson.jlist [])])
  | ProgressFileShape.ioFailure => Except.error "OSError"
  | ProgressFileShape.parsed v => Except.ok v

/-- Python subscript `value[key]` for a string key: a lookup on a dict
(`KeyError` when missing), a `TypeError` on any other JSON value. -/
def pyIndex (v : PyJson) (key : String) : Except String PyJson :=
  match v with
  | PyJson.jdict entries =>
    match entries.lookup key with
    | some x => Except.ok x
    | none => Except.error "KeyError"
  | PyJson.jlist _ => Except.error "TypeError"
  | _ => Except.error "TypeError"

/-- Python `set(x)`: iterable JSON values (arrays, strings, dict keys)
yield their elements, non-iterable ones raise `TypeError`. -/
def pySetOf (v : PyJson) : Except String (List PyJson) :=
  match v with
  | PyJson.jlist xs => Except.ok xs
  | PyJson.jstr s => Except.ok (s.toList.map fun c => PyJson.jstr c.toString)
  | PyJson.jdict entries => Except.ok (entries.map fun p => PyJson.jstr p.1)
  | _ => Except.error "TypeError"

/-- Lines 541-542 of src/main.py:
`set(self.load_progress()["processed_channels"])` — the loaded processed
set, or the first escaping exception. -/
def loadProcessed (pf : ProgressFileShape) : Except String (List PyJson) := do
  let p ← load_progress pf
  let l ← pyIndex p "processed_channels"
  pySetOf l

/-- Whether `enhance_data` gets past loading the checkpoint: an exception
escaping `loadProcessed` is caught only by the outermost
`except Exception` handler of line 634, which logs and returns — the run
enriches nothing. -/
def enhanceRunStarts (pf : ProgressFileShape) (resume : Bool) : Bool :=
  if resume then
    match loadProcessed pf with
    | Except.ok _ => true
    | Except.error _ => false
  else true

/-- A CSV table as loaded by `read_csv_pandas`: header and rows of cells.
`read_csv_pandas` replaces `NaN` and `"--"` cells by `None`, so a null cell
is `Value.null`. -/
structure CsvTable where
  cols : List String
  rows : List (List Value)
  deriving DecidableEq, Repr

/-- Expression `df.iloc[-1].values[-1]`: the last cell of the last row, an
`IndexError` (modelled `none`) when there is no such cell. -/
def lastCellValue (t : CsvTable) : Option Value :=
  match t.rows.getLast? with
  | none => none
  | some r => r.getLast?

/-- State of the enhanced CSV when the `enhance` command starts: absent,
present but failing to read (`read_csv_pandas` returns `None`), or a parsed
table. -/
inductive EnhancedFileState where
  | absent
  | unreadable
  | present (t : CsvTable)

/-- Outcome of the `enhance` command prologue. -/
inductive EnhOutcome where
  | proceeded
  | declaredComplete
  | aborted
  deriving DecidableEq, Repr

/-- The completion heuristic of the `enhance` CLI command (src/main.py
lines 682-695).  When the enhanced file exists: a null last cell of the
last row means the enhancement is ongoing and the command proceeds to
`enhance_data`; otherwise, more than 5 columns means completed and the
command returns having touched nothing; otherwise it proceeds.  A file that
cannot be read, or a table without a last cell, raises on
`df.iloc[-1]`; the exception is caught by the handler of line 696, so the
command aborts without enriching. -/
def enhanceCommandOutcome (fs : EnhancedFileState) : EnhOutcome :=
  match fs with
  | EnhancedFileState.absent => EnhOutcome.proceeded
  | EnhancedFileState.unreadable => EnhOutcome.aborted
  | EnhancedFileState.present t =>
    match lastCellValue t with
    | none => EnhOutcome.aborted
    | some v =>
      if v = Value.null then EnhOutcome.proceeded
      else if t.cols.length > 5 then EnhOutcome.declaredComplete
      else EnhOutcome.proceeded

/-- A document node on which every selection fails: models a page whose
markup matches none of the locators. -/
def exElem : Element :=
  Element.mk (fun _ => none) (fun _ => []) "" (fun _ => none) [] none

/-- The stats extracted from the all-sentinel document. -/
def exStats : SocialBladeStats := scalarStats exElem

/-- A fetch function for concrete pipeline runs: every subject succeeds. -/
def exFetch : Nat → Option SocialBladeStats := fun _ => some exStats

/-- A concrete base row. -/
def rowA : Row :=
  { channel_id := "chA", channel_title := "Alpha", socialblade := none }

/-- A second concrete base row. -/
def rowB : Row :=
  { channel_id := "chB", channel_title := "Beta", socialblade := none }

/-- A fresh-run initial state over two subjects: no enhanced file, no
progress file, nothing processed. -/
def exInit : PipeState :=
  { df := [rowA, rowB], processed := [], enhancedFile := none,
    progressFile := none }

/-- A resumed-run initial state in which the single subject is already
checkpointed, so the iteration skips it. -/
def exInitSkip : PipeState :=
  { df := [rowA], processed := ["chA"], enhancedFile := none,
    progressFile := some ["chA"] }

/-- A fetch environment whose profile-page request returns HTTP 500. -/
def exEnvNon200 : FetchEnv :=
  { profileStatus := 500, profileDoc := exElem, videoStatus := 200,
    videoJson := some [] }

/-- A fetch environment with a successful profile page whose video-list
body carries a JSON `null` in the `created_at` field of the most recent
video. -/
def exEnvNullDate : FetchEnv :=
  { profileStatus := 200, profileDoc := exElem, videoStatus := 200,
    videoJson := some [VideoRec.mk [("created_at", Value.null)]] }

/-- A fetch environment with a successful profile page but a failing
video-list request (HTTP 503). -/
def exEnvVideoFail : FetchEnv :=
  { profileStatus := 200, profileDoc := exElem, videoStatus := 503,
    videoJson := none }

/-- A completed-looking enhanced CSV: six columns and a non-null last cell
of the last row. -/
def exTable : CsvTable :=
  { cols := ["channel_id", "channel_title", "youtube_url",
             "social_blade_url", "fetch_date", "socialblade_name"],
    rows := [[Value.str "chA", Value.str "Alpha", Value.str "u",
              Value.str "s", Value.str "d", Value.str "done"]] }

/-- The failure conditions of one `_get_text` extraction: no receiver (a
`select_one` upstream returned `None`), no element matching the locator, a
requested (truthy) attribute that the element lacks, or a first-child
request on an element without child nodes. -/
def extractionFails (soup : Option Element) (selector : String)
    (attr : Option String) (fc : Bool) : Prop :=
  soup = none
  ∨ (∃ el, soup = some el ∧ el.sel selector = none)
  ∨ (∃ el e a, soup = some el ∧ el.sel selector = some e ∧ attr = some a
        ∧ a ≠ "" ∧ e.attr a = none)
  ∨ (∃ el e, soup = some el ∧ el.sel selector = some e
        ∧ (attr = none ∨ attr = some "") ∧ fc = true ∧ e.contents = [])

/-- The failure conditions of one `_get_first_text` extraction: no receiver,
no element matching the locator, or no direct string child. -/
def firstTextFails (element : Option Element) (selector : String) : Prop :=
  element = none
  ∨ (∃ el, element = some el ∧ el.sel selector = none)
  ∨ (∃ el e, element = some el ∧ el.sel selector = some e
        ∧ e.directString = none)

/-- C5.  Both field extractors are total — they return a `String` for every
document, locator and mode, which is visible in their Lean type, the
blanket `except` being folded into `get_text` / `get_first_text` — and
whenever no element matches the locator, or the requested attribute or
child is absent, or a structural assumption fails (`None` receiver, no
direct string child), the result is the sentinel `"N/A"`. -/
theorem c5_extractor_sentinel :
    (∀ soup selector attr fc, extractionFails soup selector attr fc →
      get_text soup selector attr fc = "N/A")
    ∧ (∀ element selector, firstTextFails element selector →
      get_first_text element selector = "N/A") := by
  constructor
  · intro soup selector attr fc hfail
    rcases hfail with h | ⟨el, hel, hsel⟩ | ⟨el, e, a, hel, hsel, hattr, hne, hget⟩
      | ⟨el, e, hel, hsel, hattr, hfc, hcont⟩
    · subst h; rfl
    · subst hel
      simp [get_text, get_text_body, hsel]
    · subst hel hattr
      simp [get_text, get_text_body, hsel, hne, hget]
    · subst hel hfc
      rcases hattr with hattr | hattr <;> subst hattr <;>
        simp [get_text, get_text_body, get_text_rest, hsel, hcont]
  · intro element selector hfail
    rcases hfail with h | ⟨el, hel, hsel⟩ | ⟨el, e, hel, hsel, hds⟩
    · subst h; rfl
    · subst hel
      simp [get_first_text, get_first_text_body, hsel]
    · subst hel
      simp [get_first_text, get_first_text_body, hsel, hds]

/-- Witness for C5: a `None` receiver is extracted to the sentinel. -/
theorem c5_extractor_sentinel_witness : get_text none "div" none false = "N/A" :=
  c5_extractor_sentinel.1 none "div" none false (Or.inl rfl)

/-- C3.  A subject whose profile-page request returns a non-200 status: the
fetch returns the failure signal `none` (one request is issued per call —
the model consults the environment once — so there is no in-call retry),
and the pipeline iteration for that subject leaves its dataframe row
unmodified, leaves the in-memory processed set unchanged and leaves the
persisted checkpoint unchanged, so a later run will not skip the
subject. -/
theorem c3_non200_leaves_row_and_checkpoint (envs : Nat → FetchEnv)
    (st : PipeState) (idx : Nat) (h : (envs idx).profileStatus ≠ 200) :
    pipelineFetch envs idx = none
    ∧ (processRow (pipelineFetch envs) st idx).df = st.df
    ∧ (processRow (pipelineFetch envs) st idx).processed = st.processed
    ∧ (processRow (pipelineFetch envs) st idx).progressFile = st.progressFile := by
  have hf : pipelineFetch envs idx = none := by
    simp [pipelineFetch, fetch_channel_stats, h]
  refine ⟨hf, ?_⟩
  unfold processRow
  cases hrow : st.df[idx]? with
  | none => exact ⟨rfl, rfl, rfl⟩
  | some row =>
    by_cases hm : row.channel_id ∈ st.processed
    · simp [hm]
    · simp only [if_neg hm, updateOnFetch, hf, maybeFlush]
      split <;> exact ⟨rfl, rfl, rfl⟩

/-- Per-subject fetch environments for the concrete counter-runs: every
profile request returns HTTP 500. -/
def exEnvs : Nat → FetchEnv := fun _ => exEnvNon200

/-- Witness for C3 at a concrete HTTP-500 environment. -/
theorem c3_non200_witness :
    pipelineFetch exEnvs 0 = none
    ∧ (processRow (pipelineFetch exEnvs) exInit 0).df = exInit.df := by
  have h := c3_non200_leaves_row_and_checkpoint exEnvs exInit 0 (by decide)
  exact ⟨h.1, h.2.1⟩

/-- C2.  If a cancellation signal arrives at the top of any per-subject
iteration, the run terminates as `interrupted`, with the persisted dataset
equal to the full in-memory dataframe and the persisted checkpoint equal to
the full in-memory processed set (both flushes performed, checkpoint left
intact rather than cleared). -/
theorem c2_cancellation_flushes (fetch : Nat → Option SocialBladeStats)
    (idxs : List Nat) (c : Nat) (st : PipeState) (hc : c ∈ idxs) :
    (runFrom fetch (some c) idxs st).2 = RunOutcome.interrupted
    ∧ (runFrom fetch (some c) idxs st).1.enhancedFile
        = some (runFrom fetch (some c) idxs st).1.df
    ∧ (runFrom fetch (some c) idxs st).1.progressFile
        = some (runFrom fetch (some c) idxs st).1.processed := by
  induction idxs generalizing st with
  | nil => cases hc
  | cons a rest ih =>
    by_cases hca : c = a
    · subst hca
      simp [runFrom, interruptSave]
    · have hc2 : c ∈ rest := by
        rcases List.mem_cons.mp hc with h | h
        · exact absurd h hca
        · exact h
      have hne : (some c : Option Nat) ≠ some a := by
        intro hh
        exact hca (Option.some.inj hh)
      simp only [runFrom, if_neg hne]
      exact ih (processRow fetch st a) hc2

/-- Witness for C2: cancelling the two-subject run at its first iteration
interrupts it with both flushes performed. -/
theorem c2_cancellation_flushes_witness :
    (0 ∈ List.range exInit.df.length)
    ∧ (runFrom exFetch (some 0) (List.range exInit.df.length) exInit).2
        = RunOutcome.interrupted := by
  have h := c2_cancellation_flushes exFetch (List.range exInit.df.length) 0
    exInit (by decide)
  exact ⟨by decide, h.1⟩

/-- C8.  When the profile page succeeds but the video-list request fails
(non-200 status, or a body on which JSON decoding fails), the fetch still
returns a stats record — the failure signal is confined to
`fetch_video_stats` — and the returned record is exactly the profile-only
extraction: the video-derived fields keep their defaults (`"N/A"` upload
date, no video list), every other field is extracted as usual. -/
theorem c8_video_failure_partial (env : FetchEnv)
    (hp : env.profileStatus = 200)
    (hv : env.videoStatus ≠ 200 ∨ env.videoJson = none) :
    fetch_video_stats env = none
    ∧ fetch_channel_stats env
        = some (applyBlocks env.profileDoc (scalarStats env.profileDoc))
    ∧ (applyBlocks env.profileDoc (scalarStats env.profileDoc)).last_50_videos_stats_json
        = none
    ∧ (applyBlocks env.profileDoc (scalarStats env.profileDoc)).last_video_upload_date
        = Value.str "N/A" := by
  have hvn : fetch_video_stats env = none := by
    unfold fetch_video_stats
    rcases hv with hv | hv
    · simp [hv]
    · simp [hv]
  refine ⟨hvn, ?_, ?_, ?_⟩
  · simp [fetch_channel_stats, hp, assembleStats, applyVideo, hvn]
  · simp [applyBlocks, scalarStats]
  · simp [applyBlocks, scalarStats]

/-- Witness for C8 at a concrete HTTP-503 video endpoint. -/
theorem c8_video_failure_witness :
    fetch_video_stats exEnvVideoFail = none
    ∧ fetch_channel_stats exEnvVideoFail
        = some (applyBlocks exEnvVideoFail.profileDoc
            (scalarStats exEnvVideoFail.profileDoc)) := by
  have h := c8_video_failure_partial exEnvVideoFail rfl (Or.inl (by decide))
  exact ⟨h.1, h.2.1⟩

/-- C9.  The recent-daily extraction takes the child blocks of the
user-content container, skips the six leading non-data blocks, maps each of
the at most fourteen following blocks to one `DailyStats` preserving
document order (the entry at result position `i` comes from container child
`6 + i`), and returns the empty sequence whenever the container has no data
blocks past the leading six (and, in the source, whenever the block
extraction as a whole raises — a branch that is unreachable in this model
because every per-field extraction catches its own failures). -/
theorem c9_daily_window (soup : Element) :
    (extract_recent_daily_stats soup).length
      = min ((soup.selAll "#socialblade-user-content > div").length - 6) 14
    ∧ (∀ i, i < 14 →
        (extract_recent_daily_stats soup)[i]?
          = ((soup.selAll "#socialblade-user-content > div")[6 + i]?).map dailyStatOf)
    ∧ ((soup.selAll "#socialblade-user-content > div").length ≤ 6 →
        extract_recent_daily_stats soup = []) := by
  refine ⟨?_, ?_, ?_⟩
  · simp [extract_recent_daily_stats, List.length_take, List.length_drop,
      Nat.min_comm]
  · intro i hi
    simp [extract_recent_daily_stats, List.getElem?_map, List.getElem?_take,
      List.getElem?_drop, hi]
  · intro hle
    simp [extract_recent_daily_stats, List.drop_eq_nil_of_le hle]

/-- Witness for C9: a document without the container yields the empty
sequence. -/
theorem c9_daily_window_witness : extract_recent_daily_stats exElem = [] :=
  (c9_daily_window exElem).2.2 (by decide)

/-- C10.  For an existing, readable, non-empty enhanced file the `enhance`
command declares completion (returning before `enhance_data`, so nothing is
fetched and no file is modified) exactly when the last cell of the last row
is non-null and the table has more than 5 columns; in every other case with
a well-defined last cell it proceeds into the normal resume flow.  An
absent file always proceeds. -/
theorem c10_completion_heuristic (t : CsvTable) (v : Value)
    (h : lastCellValue t = some v) :
    (enhanceCommandOutcome (EnhancedFileState.present t)
        = EnhOutcome.declaredComplete ↔ (v ≠ Value.null ∧ 5 < t.cols.length))
    ∧ (enhanceCommandOutcome (EnhancedFileState.present t)
        = EnhOutcome.proceeded ↔ ¬ (v ≠ Value.null ∧ 5 < t.cols.length))
    ∧ enhanceCommandOutcome EnhancedFileState.absent = EnhOutcome.proceeded := by
  simp only [enhanceCommandOutcome]
  rw [h]
  by_cases hv : v = Value.null
  · subst hv
    simp
  · by_cases hc : 5 < t.cols.length
    · simp [hv, hc]
    · simp [hv, hc]

/-- Witness for C10: a six-column table with a non-null final cell is
declared complete. -/
theorem c10_completion_heuristic_witness :
    lastCellValue exTable = some (Value.str "done")
    ∧ enhanceCommandOutcome (EnhancedFileState.present exTable)
        = EnhOutcome.declaredComplete := by
  refine ⟨rfl, ?_⟩
  exact (c10_completion_heuristic exTable (Value.str "done") rfl).1.mpr
    ⟨by decide, by decide⟩

/-- The one hole in the string-field non-nullity invariant: the video-list
endpoint answered 200 with an array whose first record carries a JSON
`null` in `created_at`; `video_stats[0]["created_at"]` then yields Python
`None` and is stored into the string-typed `last_video_upload_date`. -/
def headCreatedAtNull (env : FetchEnv) : Prop :=
  env.videoStatus = 200
  ∧ ∃ v rest, env.videoJson = some (v :: rest)
      ∧ v.fields.lookup "created_at" = some Value.null

/-- The upload date returned by a successful `fetch_video_stats` is a
string unless the first record's `created_at` is JSON `null`. -/
theorem fetch_video_stats_date (env : FetchEnv) (d : Value)
    (vids : List VideoRec) (h : fetch_video_stats env = some (d, vids)) :
    d.isStr = true ∨ headCreatedAtNull env := by
  unfold fetch_video_stats at h
  by_cases h2 : env.videoStatus ≠ 200
  · simp [h2] at h
  · have hst : env.videoStatus = 200 := by omega
    rw [if_neg h2] at h
    cases hj : env.videoJson with
    | none =>
      rw [hj] at h
      simp at h
    | some vids0 =>
      rw [hj] at h
      cases vids0 with
      | nil =>
        simp only [Option.some.injEq, Prod.mk.injEq] at h
        left
        rw [← h.1]
        rfl
      | cons v rest =>
        simp only [Option.some.injEq] at h
        cases hlk : v.fields.lookup "created_at" with
        | none =>
          rw [hlk] at h
          simp at h
        | some dv =>
          rw [hlk] at h
          simp only [Option.some.injEq, Prod.mk.injEq] at h
          cases dv with
          | str s =>
            left
            rw [← h.1]
            rfl
          | null => exact Or.inr ⟨hst, v, rest, hj, hlk⟩

/-- Counterexample to C6 as stated: a successful fetch (the result is
`some`) whose string-typed `last_video_upload_date` attribute holds Python
`None` — the video endpoint returned a record with a JSON `null`
`created_at`, which the code stores without a null check, so not every
string-typed field of a successful fetch is non-null. -/
theorem c6_nonnull_cex :
    (fetch_channel_stats exEnvNullDate).isSome = true
    ∧ (fetch_channel_stats exEnvNullDate).map SocialBladeStats.last_video_upload_date
        = some Value.null := by
  exact ⟨rfl, rfl⟩

/-- C6 amended.  On every successful fetch the fifteen profile scalar
fields each hold an actual string — real extracted text or the sentinel
`"N/A"`, never null — and the sixteenth string-typed field, the last
upload date, also holds a string except in the single case where the video
endpoint's most recent record carries a JSON `null` creation date. -/
theorem c6_scalar_fields_nonnull (env : FetchEnv) (s : SocialBladeStats)
    (h : fetch_channel_stats env = some s) :
    (s.avatar.isStr = true ∧ s.name.isStr = true ∧ s.username.isStr = true
     ∧ s.profile_url.isStr = true ∧ s.subscribers.isStr = true
     ∧ s.total_views.isStr = true ∧ s.uploads.isStr = true
     ∧ s.country.isStr = true ∧ s.channel_type.isStr = true
     ∧ s.created.isStr = true ∧ s.subscribers_last_30_days.isStr = true
     ∧ s.subscribers_growth_30_days.isStr = true
     ∧ s.estimated_monthly_earnings.isStr = true
     ∧ s.video_views_last_30_days.isStr = true
     ∧ s.video_views_growth_30_days.isStr = true)
    ∧ (¬ headCreatedAtNull env → s.last_video_upload_date.isStr = true) := by
  unfold fetch_channel_stats at h
  by_cases hp : env.profileStatus ≠ 200
  · simp [hp] at h
  · rw [if_neg hp] at h
    have hs : s = assembleStats env := by
      exact (Option.some.inj h).symm
    subst hs
    rcases hfv : fetch_video_stats env with _ | ⟨d, vids⟩
    · constructor
      · simp [assembleStats, applyVideo, hfv, applyBlocks, scalarStats,
          Value.isStr]
      · intro _
        simp [assembleStats, applyVideo, hfv, applyBlocks, scalarStats,
          Value.isStr]
    · constructor
      · simp [assembleStats, applyVideo, hfv, applyBlocks, scalarStats,
          Value.isStr]
      · intro hnot
        rcases fetch_video_stats_date env d vids hfv with hstr | hnull
        · simpa [assembleStats, applyVideo, hfv, applyBlocks] using hstr
        · exact absurd hnull hnot

/-- Witness for the amended C6: a fetch whose video call failed has every
string field, the upload date included, holding a string. -/
theorem c6_scalar_fields_witness :
    (assembleStats exEnvVideoFail).avatar.isStr = true
    ∧ (assembleStats exEnvVideoFail).last_video_upload_date.isStr = true := by
  have h := c6_scalar_fields_nonnull exEnvVideoFail (assembleStats exEnvVideoFail) rfl
  refine ⟨h.1.1, h.2 ?_⟩
  intro hc
  exact absurd hc.1 (by decide)

/-- Counterexample to C7 as stated: a checkpoint file holding the valid
JSON document `null` is a corrupt checkpoint, yet it is not treated as
"start fresh" — `load_progress` returns the parsed value, the subscript
`progress["processed_channels"]` on line 542 raises `TypeError`, and the
only handler left is the outermost `except Exception`, which logs and
returns: the run enriches nothing. -/
theorem c7_corruption_fatal_cex :
    enhanceRunStarts (ProgressFileShape.parsed PyJson.jnull) true = false := rfl

/-- C7 amended.  `load_progress` yields the empty processed set when no
checkpoint file exists and when the stored file is not syntactically valid
JSON (`json.JSONDecodeError`, logged as a warning); a well-formed
checkpoint dict yields its recorded identifiers.  Other corruption is
fatal to the run: an IO-level read failure escapes `load_progress` itself,
and syntactically valid JSON of the wrong shape (for example a dict missing
the `processed_channels` key) makes the subsequent subscript raise. -/
theorem c7_load_progress_recovery (xs : List PyJson) :
    loadProcessed ProgressFileShape.absent = Except.ok []
    ∧ loadProcessed ProgressFileShape.notJson = Except.ok []
    ∧ loadProcessed (ProgressFileShape.parsed
        (PyJson.jdict [("processed_channels", PyJson.jlist xs)])) = Except.ok xs
    ∧ loadProcessed ProgressFileShape.ioFailure = Except.error "OSError"
    ∧ loadProcessed (ProgressFileShape.parsed (PyJson.jdict []))
        = Except.error "KeyError" := by
  exact ⟨rfl, rfl, rfl, rfl, rfl⟩

/-- Witness for the amended C7 at a concrete one-identifier checkpoint. -/
theorem c7_load_progress_witness :
    loadProcessed (ProgressFileShape.parsed
        (PyJson.jdict [("processed_channels", PyJson.jlist [PyJson.jstr "chA"])]))
      = Except.ok [PyJson.jstr "chA"] :=
  (c7_load_progress_recovery [PyJson.jstr "chA"]).2.2.1

/-- Counterexample to C4 as stated: position 0 is a flush boundary
(0 mod 10 = 0), but the subject at position 0 is already checkpointed, so
the `continue` on line 564 skips the periodic flush of lines 611-616 — the
enhanced file stays absent instead of receiving the claimed full-dataset
flush. -/
theorem c4_flush_skip_cex :
    (processRow exFetch exInitSkip 0).enhancedFile
        ≠ some (processRow exFetch exInitSkip 0).df
    ∧ 0 % 10 = 0 :=
  ⟨by decide, rfl⟩

/-- C4 amended.  The entire dataset is flushed on every subject whose
position is a multiple of ten and that is not skipped as already
checkpointed — for such subjects the flush happens regardless of whether
the fetch succeeded or failed; a subject skipped by the checkpoint check
bypasses the flush boundary entirely. -/
theorem c4_flush_every_tenth_unskipped (fetch : Nat → Option SocialBladeStats)
    (st : PipeState) (idx : Nat) (row : Row) (hmod : idx % 10 = 0)
    (hrow : st.df[idx]? = some row) (hm : row.channel_id ∉ st.processed) :
    (processRow fetch st idx).enhancedFile = some (processRow fetch st idx).df := by
  unfold processRow
  rw [hrow]
  simp only [if_neg hm, maybeFlush, hmod]
  rfl

/-- Witness for the amended C4: the fresh two-subject run flushes at
position 0, whose fetch succeeds. -/
theorem c4_flush_witness :
    (processRow exFetch exInit 0).enhancedFile = some (processRow exFetch exInit 0).df := by
  exact c4_flush_every_tenth_unskipped exFetch exInit 0 rowA rfl (by decide)
    (by decide)

/-- Counterexample to C1 as stated: on the fresh two-subject run in which
every fetch succeeds, the trace point reached after the second subject has
a persisted checkpoint holding both identifiers (rewritten by
`save_progress` on every success, line 609) while the persisted dataset is
still the flush taken at position 0, in which the second row is
unenriched — the persisted checkpoint runs ahead of the durably stored
dataset between periodic flushes. -/
theorem c1_checkpoint_coverage_cex :
    runRespectsC1 exFetch (List.range exInit.df.length) exInit = false := by
  decide

/-- One pipeline step preserves in-memory consistency: every processed
identifier keeps an enriched dataframe row. -/
theorem processRow_memCovered (fetch : Nat → Option SocialBladeStats)
    (st : PipeState) (idx : Nat) (h : memCovered st) :
    memCovered (processRow fetch st idx) := by
  unfold processRow
  cases hrow : st.df[idx]? with
  | none => exact h
  | some row =>
    by_cases hm : row.channel_id ∈ st.processed
    · simp only [if_pos hm]
      exact h
    · simp only [if_neg hm]
      have hupd : memCovered (updateOnFetch fetch st idx row) := by
        unfold updateOnFetch
        cases hf : fetch idx with
        | none => exact h
        | some s =>
          show memCovered
            { st with
              df := st.df.set idx { row with socialblade := some s }
              processed := st.processed ++ [row.channel_id]
              progressFile := some (st.processed ++ [row.channel_id]) }
          intro id hid
          rcases List.getElem?_eq_some.mp hrow with ⟨hidx, hgetidx⟩
          rcases List.mem_append.mp hid with hold | hnew
          · rcases h id hold with ⟨i, hi, hcid, hsome⟩
            by_cases hii : i = idx
            · exfalso
              subst hii
              rw [List.get_eq_getElem] at hcid
              rw [hgetidx] at hcid
              apply hm
              rw [hcid]
              exact hold
            · have hi2 : i < (st.df.set idx { row with socialblade := some s }).length := by
                rw [List.length_set]
                exact hi
              refine ⟨i, hi2, ?_, ?_⟩
              · rw [List.get_eq_getElem, List.getElem_set_ne (fun he => hii he.symm) hi2]
                rw [List.get_eq_getElem] at hcid
                exact hcid
              · rw [List.get_eq_getElem, List.getElem_set_ne (fun he => hii he.symm) hi2]
                rw [List.get_eq_getElem] at hsome
                exact hsome
          · have hid2 : id = row.channel_id := by simpa using hnew
            have hidx2 : idx < (st.df.set idx { row with socialblade := some s }).length := by
              rw [List.length_set]
              exact hidx
            refine ⟨idx, hidx2, ?_, ?_⟩
            · rw [List.get_eq_getElem, List.getElem_set_self hidx2]
              exact hid2.symm
            · rw [List.get_eq_getElem, List.getElem_set_self hidx2]
              rfl
      unfold maybeFlush
      split
      · exact hupd
      · exact hupd

/-- C1 amended.  Provided the run starts consistent — every identifier of
the loaded processed set already has an enriched row in the merged
dataframe, which holds both for a fresh start (empty set) and for a resume
from files a previous run flushed together — then at the run's terminal
state, whether it completed normally (checkpoint cleared, so the property
is vacuous) or was cancelled (both flushes performed by the interrupt
handler), every identifier in the persisted checkpoint has an enriched row
in the persisted dataset.  Between periodic flushes the persisted
checkpoint may run ahead of the persisted dataset by up to one flush
interval, as the counterexample shows, so the claimed invariant holds at
flush points and termination, not at every point. -/
theorem c1_checkpoint_coverage_at_termination
    (fetch : Nat → Option SocialBladeStats) (cancel : Option Nat)
    (idxs : List Nat) (st : PipeState) (h : memCovered st) :
    persistedCovered (runFrom fetch cancel idxs st).1 := by
  induction idxs generalizing st with
  | nil =>
    intro ids hids
    simp [runFrom, finalSave] at hids
  | cons a rest ih =>
    by_cases hca : cancel = some a
    · simp only [runFrom, if_pos hca]
      intro ids hids id hid
      have hids2 : ids = st.processed := by
        have : some st.processed = some ids := hids
        exact (Option.some.inj this).symm
      subst hids2
      exact ⟨st.df, rfl, h id hid⟩
    · simp only [runFrom, if_neg hca]
      exact ih (processRow fetch st a) (processRow_memCovered fetch st a h)

/-- Witness for the amended C1: the fresh two-subject run starts
consistent, and its terminal persisted state is covered. -/
theorem c1_checkpoint_coverage_witness :
    memCovered exInit
    ∧ persistedCovered (runFrom exFetch none (List.range exInit.df.length) exInit).1 := by
  have hm : memCovered exInit := by
    intro id hid
    simp [exInit] at hid
  exact ⟨hm, c1_checkpoint_coverage_at_termination exFetch none
    (List.range exInit.df.length) exInit hm⟩

end SBA
